import Mathlib

/-!
Verification of the submission pipeline of the image-to-3D front-end
(`src/3D-Image-Generation/streamlit.py`).

The pipeline is shallowly embedded: the external world (the PIL image
conversion, the reachability probe, the Gradio client construction, the
remote `predict` call and the filesystem existence checks) is an explicit
environment record, and the pipeline `generate_3d_model` is a pure function
from that environment (plus the generation parameters and the incoming
output-directory contents) to a run outcome recording the returned artifact
triple, the error class, the number of connection attempts, the backoff
delays slept, the output directory contents afterwards, and whether the
per-request temporary directory was removed.
-/

namespace Unique3D

/-! ## String helpers mirroring the Python standard library / werkzeug -/

/-- The allow-list of upload extensions (`ALLOWED_EXTENSIONS`, streamlit.py line 32). -/
def ALLOWED_EXTENSIONS : List String := ["png", "jpg", "jpeg", "bmp", "tiff", "webp"]

/-- Characters after the last occurrence of `c`, i.e. Python's
`s.rsplit(c, 1)[1]` when `c` occurs in `s` (its value when `c` is absent is
never consulted: `allowed_file` guards with `'.' in filename` first). -/
def afterLast (c : Char) : List Char → List Char
  | [] => []
  | x :: xs => if x = c && !(xs.contains c) then xs else afterLast c xs

/-- `allowed_file` (streamlit.py lines 34-35):
`'.' in filename and filename.rsplit('.', 1)[1].lower() in ALLOWED_EXTENSIONS`.
`Char.toLower` matches Python's `str.lower` on the ASCII range, which covers
the allow-list membership test. -/
def allowed_file (filename : String) : Bool :=
  filename.toList.contains '.' &&
    ALLOWED_EXTENSIONS.contains (String.mk ((afterLast '.' filename.toList).map Char.toLower))

/-- Python `str.isspace` members relevant to `str.split()` (space, tab,
newline, vertical tab, form feed, carriage return). -/
def pyIsSpace (c : Char) : Bool :=
  c = ' ' || c = '\t' || c = '\n' || c = '\x0b' || c = '\x0c' || c = '\r'

/-- Helper for `pySplitWs`: accumulates the current word (reversed). -/
def pySplitWsAux : List Char → List Char → List (List Char)
  | [], acc => if acc.isEmpty then [] else [acc.reverse]
  | c :: cs, acc =>
    if pyIsSpace c then
      if acc.isEmpty then pySplitWsAux cs [] else acc.reverse :: pySplitWsAux cs []
    else pySplitWsAux cs (c :: acc)

/-- Python `str.split()` with no argument: split on runs of whitespace,
discarding empty fields. -/
def pySplitWs (l : List Char) : List (List Char) := pySplitWsAux l []

/-- Characters kept by werkzeug's `_filename_ascii_strip_re` substitution
(`[^A-Za-z0-9_.-]` is removed). -/
def keepFilenameChar (c : Char) : Bool :=
  c.isAlpha || c.isDigit || c = '_' || c = '.' || c = '-'

/-- Python `str.strip("._")`: drop leading and trailing `'.'` / `'_'`. -/
def stripDotUnderscore (l : List Char) : List Char :=
  ((l.dropWhile fun c => c = '.' || c = '_').reverse.dropWhile
      fun c => c = '.' || c = '_').reverse

/-- `werkzeug.utils.secure_filename` on POSIX (called at streamlit.py line 92):
encode to ASCII dropping other characters (the preceding NFKD normalization is
omitted; it is the identity on ASCII input), replace the path separator `'/'`
by a space, join the whitespace-split words with `'_'`, delete characters
outside `[A-Za-z0-9_.-]`, and strip leading/trailing `'.'` and `'_'`. -/
def secure_filename (filename : String) : String :=
  let ascii := filename.toList.filter (fun c => c.toNat < 128)
  let sepRepl := ascii.map (fun c => if c = '/' then ' ' else c)
  let joined := List.intercalate ['_'] (pySplitWs sepRepl)
  let stripped := joined.filter keepFilenameChar
  String.mk (stripDotUnderscore stripped)

/-- Index of the last occurrence of `c` (Python `str.rfind`, with `none` for -1). -/
def rfindIdx (c : Char) : List Char → Option Nat
  | [] => none
  | x :: xs =>
    match rfindIdx c xs with
    | some i => some (i + 1)
    | none => if x = c then some 0 else none

/-- `os.path.splitext` on POSIX (used at streamlit.py line 105): split off the
extension at the last `'.'` provided it lies after the last `'/'` and at least
one non-dot character precedes it within the basename. -/
def splitext (p : List Char) : List Char × List Char :=
  match rfindIdx '.' p with
  | none => (p, [])
  | some di =>
    let si : Nat := match rfindIdx '/' p with | none => 0 | some s => s + 1
    if (match rfindIdx '/' p with | none => true | some s => decide (s < di)) then
      if ((p.drop si).take (di - si)).any (fun c => c ≠ '.') then
        (p.take di, p.drop di)
      else (p, [])
    else (p, [])

/-! ## The environment: external effects seen by one pipeline run -/

/-- Outcome of one `Client(hf_space_url, hf_token=HF_TOKEN)` construction
attempt (streamlit.py lines 124-127): success, a `ValueError` whose message
contains `"429"` (rate limit), or any other `ValueError`. -/
inductive ConnectResult where
  | ok
  | rateLimited429
  | otherValueError
deriving DecidableEq, Repr

/-- Outcome of `client.predict(...)` (streamlit.py lines 154-163): a
`(model_path, video_path)` pair, or an exception whose message does / does not
indicate a GPU-quota or 429 condition (lines 166-177). `none` stands for
Python `None`; an empty string is also falsy and is handled by `pyTruthy`. -/
inductive PredictResult where
  | ok (model_path : Option String) (video_path : Option String)
  | exn (quota_or_429 : Bool)
deriving DecidableEq, Repr

/-- The external world of one run: whether the PIL conversion succeeds
(lines 53-64), whether the reachability probe succeeds (lines 74-85), the
outcome of the client construction on each attempt index, the outcome of the
remote prediction, and which paths exist on disk (`os.path.exists`). -/
structure Env where
  convert_ok : Bool
  conn_ok : Bool
  connect : Nat → ConnectResult
  predict : PredictResult
  file_exists : String → Bool

/-- Python truthiness of an `Optional[str]`: `None` and `""` are falsy. -/
def pyTruthy : Option String → Bool
  | none => false
  | some s => !s.isEmpty

/-! ## The retry loop (streamlit.py lines 120-143) -/

/-- Result of the `while attempt < retries` client-construction loop:
`connected` (the `break` at line 128), `exhausted` (the terminal rate-limit
return at lines 138-140), `failed` (the non-429 `ValueError` return at
lines 142-143), or `noClient` (the loop guard was false before any attempt,
possible only for `retries = 0`; `client` is then undefined and the later
`client.predict` raises, landing in the generic handler at line 176).
`attempts` counts `Client(...)` constructions made; `delays` lists the
`time.sleep` durations in order. -/
inductive ConnectLoopResult where
  | connected (attempts : Nat) (delays : List Nat)
  | exhausted (attempts : Nat) (delays : List Nat)
  | failed (attempts : Nat) (delays : List Nat)
  | noClient (attempts : Nat) (delays : List Nat)
deriving DecidableEq, Repr

/-- The retry loop. `fuel` is `retries - attempt`, which the `while` guard
keeps positive; the loop body is the `try/except ValueError` of lines 122-143:
on a 429 message, `attempt += 1`, and if `attempt < retries` still holds,
sleep `retry_delay` then double it (`retry_delay *= 2`) and continue. -/
def connectLoop (env : Env) (retries : Nat) : Nat → Nat → Nat → ConnectLoopResult
  | 0, attempt, _ => .noClient attempt []
  | fuel + 1, attempt, retry_delay =>
    match env.connect attempt with
    | .ok => .connected (attempt + 1) []
    | .otherValueError => .failed (attempt + 1) []
    | .rateLimited429 =>
      if attempt + 1 < retries then
        match connectLoop env retries fuel (attempt + 1) (retry_delay * 2) with
        | .connected a ds => .connected a (retry_delay :: ds)
        | .exhausted a ds => .exhausted a (retry_delay :: ds)
        | .failed a ds => .failed a (retry_delay :: ds)
        | .noClient a ds => .noClient a (retry_delay :: ds)
      else .exhausted (attempt + 1) []

/-! ## The pipeline -/

/-- Error classes of a run, following the spec's taxonomy; each corresponds to
one `st.error` + `return None, None, None` site in `generate_3d_model`. -/
inductive RunError where
  | imageConversionFailure
  | serviceUnreachable
  | rateLimited
  | connectFailure
  | quotaExceeded
  | remoteInferenceFailure
  | missingResultAsset
deriving DecidableEq, Repr

/-- Everything observable about one `generate_3d_model` run: the returned
triple (paths of the model, image and optional video artifacts, or `none` on
failure), the error class, the number of client-construction attempts, the
backoff delays slept, the contents (filenames) of the output directory when
the function returns, whether the temporary working directory was removed,
and the number of outbound network calls made (probe + client constructions
+ prediction). -/
structure RunOutcome where
  result : Option (String × String × Option String)
  error : Option RunError
  attempts : Nat
  delays : List Nat
  output_dir : List String
  temp_dir_removed : Bool
  network_calls : Nat
deriving DecidableEq, Repr

/-- `generate_3d_model` (streamlit.py lines 87-214). `output0` is the
output directory's contents when the run starts; `recreate_output_directory`
(lines 37-51, called at line 108) replaces them with the empty directory.
The temporary directory is removed only by the `shutil.rmtree(temp_dir)` at
line 206, which only the success path reaches. The video artifact is copied
exactly when `video_path` is truthy and exists on disk (line 200) — the
`generate_video` parameter is only forwarded to the remote call. -/
def generate_3d_model (env : Env)
    (remove_bg : Bool) (seed : Nat) (generate_video : Bool)
    (refine_details : Bool) (expansion_weight : Float) (mesh_init : String)
    (name : String) (output0 : List String)
    (retries : Nat := 3) (retry_delay : Nat := 5) : RunOutcome :=
  let filename := secure_filename name
  if !env.convert_ok then
    { result := none, error := some .imageConversionFailure, attempts := 0,
      delays := [], output_dir := output0, temp_dir_removed := false,
      network_calls := 0 }
  else
    let base_filename := (splitext filename.toList).1
    -- recreate_output_directory(): the output directory is now empty
    if !env.conn_ok then
      { result := none, error := some .serviceUnreachable, attempts := 0,
        delays := [], output_dir := [], temp_dir_removed := false,
        network_calls := 1 }
    else
      match connectLoop env retries retries 0 retry_delay with
      | .exhausted a ds =>
        { result := none, error := some .rateLimited, attempts := a,
          delays := ds, output_dir := [], temp_dir_removed := false,
          network_calls := 1 + a }
      | .failed a ds =>
        { result := none, error := some .connectFailure, attempts := a,
          delays := ds, output_dir := [], temp_dir_removed := false,
          network_calls := 1 + a }
      | .noClient a ds =>
        { result := none, error := some .remoteInferenceFailure, attempts := a,
          delays := ds, output_dir := [], temp_dir_removed := false,
          network_calls := 1 + a }
      | .connected a ds =>
        match env.predict with
        | .exn q =>
          { result := none,
            error := some (if q then .quotaExceeded else .remoteInferenceFailure),
            attempts := a, delays := ds, output_dir := [],
            temp_dir_removed := false, network_calls := 1 + a + 1 }
        | .ok model_path video_path =>
          if !pyTruthy model_path || !env.file_exists (model_path.getD "") then
            { result := none, error := some .missingResultAsset, attempts := a,
              delays := ds, output_dir := [], temp_dir_removed := false,
              network_calls := 1 + a + 1 }
          else
            let base := String.mk base_filename
            let model_file := base ++ "_3d_model.glb"
            let image_file := base ++ "_original.jpg"
            let video_ok := pyTruthy video_path && env.file_exists (video_path.getD "")
            let video_file := base ++ "_video.mp4"
            { result := some ("outputs/" ++ model_file, "outputs/" ++ image_file,
                if video_ok then some ("outputs/" ++ video_file) else none),
              error := none, attempts := a, delays := ds,
              output_dir := [model_file, image_file] ++
                (if video_ok then [video_file] else []),
              temp_dir_removed := true, network_calls := 1 + a + 1 }

/-! ## The submit handler (streamlit.py lines 391-442 / 445-496) -/

/-- What the submit handler did: rejected the filename up front, or ran the
pipeline with some outcome. -/
inductive SubmitOutcome where
  | invalidFormat
  | ran (o : RunOutcome)
deriving DecidableEq, Repr

/-- Result of one form submission: the outcome, the total outbound network
calls, and the output directory contents afterwards. -/
structure SubmitResult where
  outcome : SubmitOutcome
  network_calls : Nat
  output_dir : List String
deriving DecidableEq, Repr

/-- The submit handler: `if allowed_file(uploaded_file.name): ...
generate_3d_model(...) ... else: st.error("Invalid file format...")`
(streamlit.py lines 392-442). A rejected submission runs no pipeline code
and makes no network call. -/
def submit (env : Env)
    (remove_bg : Bool) (seed : Nat) (generate_video : Bool)
    (refine_details : Bool) (expansion_weight : Float) (mesh_init : String)
    (name : String) (output0 : List String)
    (retries : Nat := 3) (retry_delay : Nat := 5) : SubmitResult :=
  if allowed_file name then
    let o := generate_3d_model env remove_bg seed generate_video refine_details
      expansion_weight mesh_init name output0 retries retry_delay
    { outcome := .ran o, network_calls := o.network_calls,
      output_dir := o.output_dir }
  else
    { outcome := .invalidFormat, network_calls := 0, output_dir := output0 }

/-- The condition under which the run copies a video artifact
(streamlit.py line 200): the remote call returned a truthy `video_path`
that exists on disk. The `generate_video` parameter is not consulted. -/
def returned_video_exists (env : Env) : Bool :=
  match env.predict with
  | .ok _ video_path => pyTruthy video_path && env.file_exists (video_path.getD "")
  | .exn _ => false

/-! ## Lemmas about the retry loop -/

/-- The sequence of backoff delays produced by `k` sleeps starting at `d`
with doubling: `[d, 2*d, 4*d, ...]`. -/
def geomDelays (d : Nat) : Nat → List Nat
  | 0 => []
  | k + 1 => d :: geomDelays (d * 2) k

theorem geomDelays_chain (k : Nat) : ∀ d, List.Chain' (fun a b => a ≤ b) (geomDelays d k) := by
  induction k with
  | zero => intro d; simp [geomDelays]
  | succ k ih =>
    intro d
    rw [geomDelays, List.chain'_cons']
    refine ⟨?_, ih (d * 2)⟩
    intro y hy
    cases k with
    | zero => simp [geomDelays] at hy
    | succ m => rw [geomDelays] at hy; simp at hy; omega

/-- If the client construction is rate-limited on attempts `0..N-1` and
succeeds on attempt `N`, with `N` below the bound, the loop connects after
`N + 1` constructions, having slept the doubling delays. -/
theorem connectLoop_rl_then_ok (env : Env) (retries N : Nat)
    (hrl : ∀ i, i < N → env.connect i = .rateLimited429)
    (hok : env.connect N = .ok) (hN : N < retries) :
    ∀ k attempt d fuel, attempt + k = N → fuel = retries - attempt →
      connectLoop env retries fuel attempt d = .connected (N + 1) (geomDelays d k) := by
  intro k
  induction k with
  | zero =>
    intro attempt d fuel ha hf
    have hA : attempt = N := by omega
    subst hA
    obtain ⟨f, rfl⟩ : ∃ f, fuel = f + 1 := ⟨fuel - 1, by omega⟩
    simp only [connectLoop, hok]
    simp [geomDelays]
  | succ k ih =>
    intro attempt d fuel ha hf
    have h1 : attempt < N := by omega
    obtain ⟨f, rfl⟩ : ∃ f, fuel = f + 1 := ⟨fuel - 1, by omega⟩
    simp only [connectLoop, hrl attempt h1]
    rw [if_pos (by omega)]
    rw [ih (attempt + 1) (d * 2) f (by omega) (by omega)]
    simp [geomDelays]

/-- If every client construction is rate-limited, the loop makes exactly
`retries` constructions and exhausts. -/
theorem connectLoop_all_rl (env : Env) (retries : Nat)
    (hrl : ∀ i, env.connect i = .rateLimited429) :
    ∀ fuel attempt d, 0 < fuel → fuel = retries - attempt →
      connectLoop env retries fuel attempt d =
        .exhausted retries (geomDelays d (fuel - 1)) := by
  intro fuel
  induction fuel with
  | zero => intro attempt d h0 _; omega
  | succ f ih =>
    intro attempt d _ hf
    have hlt : attempt < retries := by omega
    simp only [connectLoop, hrl attempt]
    by_cases hc : attempt + 1 < retries
    · rw [if_pos hc]
      have hf0 : 0 < f := by omega
      rw [ih (attempt + 1) (d * 2) hf0 (by omega)]
      obtain ⟨g, rfl⟩ : ∃ g, f = g + 1 := ⟨f - 1, by omega⟩
      simp [geomDelays]
    · rw [if_neg hc]
      have h1 : attempt + 1 = retries := by omega
      have hfz : f = 0 := by omega
      subst hfz
      simp [geomDelays, h1]

/-! ## Branch equations for `generate_3d_model` -/

theorem run_conv_fail_eq (env : Env) (remove_bg : Bool) (seed : Nat)
    (generate_video refine_details : Bool) (expansion_weight : Float)
    (mesh_init name : String) (output0 : List String) (retries retry_delay : Nat)
    (hconv : env.convert_ok = false) :
    generate_3d_model env remove_bg seed generate_video refine_details
      expansion_weight mesh_init name output0 retries retry_delay =
      { result := none, error := some .imageConversionFailure, attempts := 0,
        delays := [], output_dir := output0, temp_dir_removed := false,
        network_calls := 0 } := by
  simp [generate_3d_model, hconv]

theorem run_conn_fail_eq (env : Env) (remove_bg : Bool) (seed : Nat)
    (generate_video refine_details : Bool) (expansion_weight : Float)
    (mesh_init name : String) (output0 : List String) (retries retry_delay : Nat)
    (hconv : env.convert_ok = true) (hconn : env.conn_ok = false) :
    generate_3d_model env remove_bg seed generate_video refine_details
      expansion_weight mesh_init name output0 retries retry_delay =
      { result := none, error := some .serviceUnreachable, attempts := 0,
        delays := [], output_dir := [], temp_dir_removed := false,
        network_calls := 1 } := by
  simp [generate_3d_model, hconv, hconn]

theorem run_exhausted_eq (env : Env) (remove_bg : Bool) (seed : Nat)
    (generate_video refine_details : Bool) (expansion_weight : Float)
    (mesh_init name : String) (output0 : List String) (retries retry_delay : Nat)
    (a : Nat) (ds : List Nat)
    (hconv : env.convert_ok = true) (hconn : env.conn_ok = true)
    (hloop : connectLoop env retries retries 0 retry_delay = .exhausted a ds) :
    generate_3d_model env remove_bg seed generate_video refine_details
      expansion_weight mesh_init name output0 retries retry_delay =
      { result := none, error := some .rateLimited, attempts := a,
        delays := ds, output_dir := [], temp_dir_removed := false,
        network_calls := 1 + a } := by
  simp [generate_3d_model, hconv, hconn, hloop]

theorem run_connect_failed_eq (env : Env) (remove_bg : Bool) (seed : Nat)
    (generate_video refine_details : Bool) (expansion_weight : Float)
    (mesh_init name : String) (output0 : List String) (retries retry_delay : Nat)
    (a : Nat) (ds : List Nat)
    (hconv : env.convert_ok = true) (hconn : env.conn_ok = true)
    (hloop : connectLoop env retries retries 0 retry_delay = .failed a ds) :
    generate_3d_model env remove_bg seed generate_video refine_details
      expansion_weight mesh_init name output0 retries retry_delay =
      { result := none, error := some .connectFailure, attempts := a,
        delays := ds, output_dir := [], temp_dir_removed := false,
        network_calls := 1 + a } := by
  simp [generate_3d_model, hconv, hconn, hloop]

theorem run_noClient_eq (env : Env) (remove_bg : Bool) (seed : Nat)
    (generate_video refine_details : Bool) (expansion_weight : Float)
    (mesh_init name : String) (output0 : List String) (retries retry_delay : Nat)
    (a : Nat) (ds : List Nat)
    (hconv : env.convert_ok = true) (hconn : env.conn_ok = true)
    (hloop : connectLoop env retries retries 0 retry_delay = .noClient a ds) :
    generate_3d_model env remove_bg seed generate_video refine_details
      expansion_weight mesh_init name output0 retries retry_delay =
      { result := none, error := some .remoteInferenceFailure, attempts := a,
        delays := ds, output_dir := [], temp_dir_removed := false,
        network_calls := 1 + a } := by
  simp [generate_3d_model, hconv, hconn, hloop]

theorem run_predict_exn_eq (env : Env) (remove_bg : Bool) (seed : Nat)
    (generate_video refine_details : Bool) (expansion_weight : Float)
    (mesh_init name : String) (output0 : List String) (retries retry_delay : Nat)
    (a : Nat) (ds : List Nat) (q : Bool)
    (hconv : env.convert_ok = true) (hconn : env.conn_ok = true)
    (hloop : connectLoop env retries retries 0 retry_delay = .connected a ds)
    (hp : env.predict = .exn q) :
    generate_3d_model env remove_bg seed generate_video refine_details
      expansion_weight mesh_init name output0 retries retry_delay =
      { result := none,
        error := some (if q then .quotaExceeded else .remoteInferenceFailure),
        attempts := a, delays := ds, output_dir := [],
        temp_dir_removed := false, network_calls := 1 + a + 1 } := by
  simp [generate_3d_model, hconv, hconn, hloop, hp]

theorem run_missing_eq (env : Env) (remove_bg : Bool) (seed : Nat)
    (generate_video refine_details : Bool) (expansion_weight : Float)
    (mesh_init name : String) (output0 : List String) (retries retry_delay : Nat)
    (a : Nat) (ds : List Nat) (model_path video_path : Option String)
    (hconv : env.convert_ok = true) (hconn : env.conn_ok = true)
    (hloop : connectLoop env retries retries 0 retry_delay = .connected a ds)
    (hp : env.predict = .ok model_path video_path)
    (hbad : pyTruthy model_path = false ∨ env.file_exists (model_path.getD "") = false) :
    generate_3d_model env remove_bg seed generate_video refine_details
      expansion_weight mesh_init name output0 retries retry_delay =
      { result := none, error := some .missingResultAsset, attempts := a,
        delays := ds, output_dir := [], temp_dir_removed := false,
        network_calls := 1 + a + 1 } := by
  rcases hbad with hb | hb
  · simp [generate_3d_model, hconv, hconn, hloop, hp, hb]
  · simp [generate_3d_model, hconv, hconn, hloop, hp, hb]

theorem run_success_eq (env : Env) (remove_bg : Bool) (seed : Nat)
    (generate_video refine_details : Bool) (expansion_weight : Float)
    (mesh_init name : String) (output0 : List String) (retries retry_delay : Nat)
    (a : Nat) (ds : List Nat) (model_path video_path : Option String)
    (hconv : env.convert_ok = true) (hconn : env.conn_ok = true)
    (hloop : connectLoop env retries retries 0 retry_delay = .connected a ds)
    (hp : env.predict = .ok model_path video_path)
    (hmp : pyTruthy model_path = true)
    (hex : env.file_exists (model_path.getD "") = true) :
    generate_3d_model env remove_bg seed generate_video refine_details
      expansion_weight mesh_init name output0 retries retry_delay =
      (let base := String.mk (splitext (secure_filename name).toList).1
       let video_ok := pyTruthy video_path && env.file_exists (video_path.getD "")
       { result := some ("outputs/" ++ (base ++ "_3d_model.glb"),
            "outputs/" ++ (base ++ "_original.jpg"),
            if video_ok then some ("outputs/" ++ (base ++ "_video.mp4")) else none),
         error := none, attempts := a, delays := ds,
         output_dir := [base ++ "_3d_model.glb", base ++ "_original.jpg"] ++
            (if video_ok then [base ++ "_video.mp4"] else []),
         temp_dir_removed := true, network_calls := 1 + a + 1 }) := by
  simp [generate_3d_model, hconv, hconn, hloop, hp, hmp, hex]

/-! ## Lemmas about `afterLast` (the extension extraction) -/

theorem afterLast_decomp (c : Char) :
    ∀ l : List Char, l.contains c = true →
      (∃ l1, l = l1 ++ c :: afterLast c l) ∧ (afterLast c l).contains c = false := by
  intro l
  induction l with
  | nil => intro h; simp at h
  | cons x xs ih =>
    intro h
    rw [afterLast]
    by_cases hxs : xs.contains c = true
    · have hmem : c ∈ xs := by simpa using hxs
      rw [if_neg (by simp [hmem])]
      obtain ⟨⟨l1, hl1⟩, hnc⟩ := ih hxs
      exact ⟨⟨x :: l1, by rw [List.cons_append, ← hl1]⟩, hnc⟩
    · have hxs' : xs.contains c = false := by
        cases hv : xs.contains c
        · rfl
        · exact absurd hv hxs
      have hmem : c ∉ xs := by simpa using hxs'
      have hx : x = c := by
        simp at h
        rcases h with h | h
        · exact h.symm
        · exact absurd h hmem
      rw [if_pos (by simp [hx, hmem])]
      exact ⟨⟨[], by rw [hx, List.nil_append]⟩, hxs'⟩

theorem afterLast_append (c : Char) (l2 : List Char) (h2 : l2.contains c = false) :
    ∀ l1 : List Char, afterLast c (l1 ++ c :: l2) = l2 := by
  intro l1
  induction l1 with
  | nil =>
    have hmem2 : c ∉ l2 := by simpa using h2
    rw [List.nil_append, afterLast]
    simp [hmem2]
  | cons x l1 ih =>
    have hcont : (l1 ++ c :: l2).contains c = true := by simp
    rw [List.cons_append, afterLast]
    simp [hcont, ih]

/-- Spec-level reformulation of the extension check: a filename is accepted
exactly when its character sequence splits as `a ++ '.' :: b` with `b`
dot-free (so `b` is the part after the last dot) and `b`, lowercased,
a member of the allow-list. -/
def allowed_file_spec_pred (filename : String) : Prop :=
  ∃ a b : List Char, filename.toList = a ++ '.' :: b ∧ b.contains '.' = false ∧
    ALLOWED_EXTENSIONS.contains (String.mk (b.map Char.toLower)) = true

/-! ## History independence of the output directory -/

/-- Once the run reaches `recreate_output_directory` (i.e. the image
conversion succeeded), the final output directory contents do not depend on
what the directory held before the run. -/
theorem run_output_dir_indep (env : Env) (remove_bg : Bool) (seed : Nat)
    (generate_video refine_details : Bool) (expansion_weight : Float)
    (mesh_init name : String) (output0 output1 : List String)
    (retries retry_delay : Nat) (hconv : env.convert_ok = true) :
    (generate_3d_model env remove_bg seed generate_video refine_details
      expansion_weight mesh_init name output0 retries retry_delay).output_dir =
    (generate_3d_model env remove_bg seed generate_video refine_details
      expansion_weight mesh_init name output1 retries retry_delay).output_dir := by
  cases hconn : env.conn_ok with
  | false =>
    rw [run_conn_fail_eq env remove_bg seed generate_video refine_details
        expansion_weight mesh_init name output0 retries retry_delay hconv hconn,
      run_conn_fail_eq env remove_bg seed generate_video refine_details
        expansion_weight mesh_init name output1 retries retry_delay hconv hconn]
  | true =>
    cases hloop : connectLoop env retries retries 0 retry_delay with
    | exhausted a ds =>
      rw [run_exhausted_eq env remove_bg seed generate_video refine_details
          expansion_weight mesh_init name output0 retries retry_delay a ds hconv hconn hloop,
        run_exhausted_eq env remove_bg seed generate_video refine_details
          expansion_weight mesh_init name output1 retries retry_delay a ds hconv hconn hloop]
    | failed a ds =>
      rw [run_connect_failed_eq env remove_bg seed generate_video refine_details
          expansion_weight mesh_init name output0 retries retry_delay a ds hconv hconn hloop,
        run_connect_failed_eq env remove_bg seed generate_video refine_details
          expansion_weight mesh_init name output1 retries retry_delay a ds hconv hconn hloop]
    | noClient a ds =>
      rw [run_noClient_eq env remove_bg seed generate_video refine_details
          expansion_weight mesh_init name output0 retries retry_delay a ds hconv hconn hloop,
        run_noClient_eq env remove_bg seed generate_video refine_details
          expansion_weight mesh_init name output1 retries retry_delay a ds hconv hconn hloop]
    | connected a ds =>
      cases hp : env.predict with
      | exn q =>
        rw [run_predict_exn_eq env remove_bg seed generate_video refine_details
            expansion_weight mesh_init name output0 retries retry_delay a ds q hconv hconn hloop hp,
          run_predict_exn_eq env remove_bg seed generate_video refine_details
            expansion_weight mesh_init name output1 retries retry_delay a ds q hconv hconn hloop hp]
      | ok mp vp =>
        cases hmp : pyTruthy mp with
        | false =>
          rw [run_missing_eq env remove_bg seed generate_video refine_details
              expansion_weight mesh_init name output0 retries retry_delay a ds mp vp
              hconv hconn hloop hp (Or.inl hmp),
            run_missing_eq env remove_bg seed generate_video refine_details
              expansion_weight mesh_init name output1 retries retry_delay a ds mp vp
              hconv hconn hloop hp (Or.inl hmp)]
        | true =>
          cases hex : env.file_exists (mp.getD "") with
          | false =>
            rw [run_missing_eq env remove_bg seed generate_video refine_details
                expansion_weight mesh_init name output0 retries retry_delay a ds mp vp
                hconv hconn hloop hp (Or.inr hex),
              run_missing_eq env remove_bg seed generate_video refine_details
                expansion_weight mesh_init name output1 retries retry_delay a ds mp vp
                hconv hconn hloop hp (Or.inr hex)]
          | true =>
            rw [run_success_eq env remove_bg seed generate_video refine_details
                expansion_weight mesh_init name output0 retries retry_delay a ds mp vp
                hconv hconn hloop hp hmp hex,
              run_success_eq env remove_bg seed generate_video refine_details
                expansion_weight mesh_init name output1 retries retry_delay a ds mp vp
                hconv hconn hloop hp hmp hex]

/-! ## Concrete environments for witnesses and counterexamples -/

/-- Environment where every external step succeeds and the remote returns a
model but no video. -/
def envOkNoVideo : Env :=
  { convert_ok := true, conn_ok := true, connect := fun _ => .ok,
    predict := .ok (some "m.glb") none, file_exists := fun _ => true }

/-- Environment where every external step succeeds and the remote returns a
model and a video that exists on disk. -/
def envOkVideo : Env :=
  { convert_ok := true, conn_ok := true, connect := fun _ => .ok,
    predict := .ok (some "m.glb") (some "v.mp4"), file_exists := fun _ => true }

/-- Environment whose image conversion fails. -/
def envConvFail : Env := { envOkNoVideo with convert_ok := false }

/-- Environment whose reachability probe fails. -/
def envConnFail : Env := { envOkNoVideo with conn_ok := false }

/-- Environment whose client construction is rate-limited on every attempt. -/
def envAllRateLimited : Env := { envOkNoVideo with connect := fun _ => .rateLimited429 }

/-- Environment rate-limited on the first attempt only. -/
def envOneRateLimited : Env :=
  { envOkNoVideo with connect := fun i => if i = 0 then .rateLimited429 else .ok }

/-- Environment where the remote returns a model path that does not exist on
disk. -/
def envMissingModel : Env := { envOkNoVideo with file_exists := fun _ => false }

/-! ## The claims -/

/-- C10: the extension check accepts a filename iff it contains at least one
`'.'` and the substring after the last `'.'` lowercases to a member of the
allow-list; in particular a dot-free filename is rejected and upper- or
mixed-case spellings of allowed extensions are accepted. -/
theorem claim10_allowed_file_iff (filename : String) :
    allowed_file filename = true ↔ allowed_file_spec_pred filename := by
  constructor
  · intro h
    rw [allowed_file, Bool.and_eq_true] at h
    obtain ⟨hdot, hmem⟩ := h
    obtain ⟨⟨l1, hl1⟩, hnc⟩ := afterLast_decomp '.' filename.toList hdot
    exact ⟨l1, afterLast '.' filename.toList, hl1, hnc, hmem⟩
  · rintro ⟨a, b, heq, hb, hmem⟩
    have hafter : afterLast '.' filename.toList = b := by
      rw [heq]; exact afterLast_append '.' b hb a
    rw [allowed_file, Bool.and_eq_true]
    constructor
    · rw [heq]; simp
    · rw [hafter]; exact hmem

/-- C4: a submitted filename whose extension is outside the allow-list is
rejected with the invalid-format error before any network call is made and
before the generation pipeline runs. -/
theorem claim4_invalid_rejected (env : Env) (remove_bg : Bool) (seed : Nat)
    (generate_video refine_details : Bool) (expansion_weight : Float)
    (mesh_init name : String) (output0 : List String) (retries retry_delay : Nat)
    (h : allowed_file name = false) :
    submit env remove_bg seed generate_video refine_details expansion_weight
      mesh_init name output0 retries retry_delay =
      { outcome := .invalidFormat, network_calls := 0, output_dir := output0 } := by
  simp [submit, h]

/-- C4 witness: a `.zip` upload is rejected with zero network calls, leaving
the output directory untouched. -/
theorem claim4_invalid_rejected_witness :
    allowed_file "archive.zip" = false ∧
    submit envOkNoVideo true 40 false true 0.2 "thin" "archive.zip"
        ["prev_3d_model.glb"] 3 5 =
      { outcome := .invalidFormat, network_calls := 0,
        output_dir := ["prev_3d_model.glb"] } :=
  ⟨by decide,
    claim4_invalid_rejected envOkNoVideo true 40 false true 0.2 "thin"
      "archive.zip" ["prev_3d_model.glb"] 3 5 (by decide)⟩

/-- C9: if re-encoding the uploaded image to JPEG fails, the pipeline returns
an empty result before the output directory is recreated, so the previous
submission's artifacts remain on disk unchanged. -/
theorem claim9_conv_failure_preserves (env : Env) (remove_bg : Bool) (seed : Nat)
    (generate_video refine_details : Bool) (expansion_weight : Float)
    (mesh_init name : String) (output0 : List String) (retries retry_delay : Nat)
    (hconv : env.convert_ok = false) :
    (generate_3d_model env remove_bg seed generate_video refine_details
        expansion_weight mesh_init name output0 retries retry_delay).result = none ∧
    (generate_3d_model env remove_bg seed generate_video refine_details
        expansion_weight mesh_init name output0 retries retry_delay).error =
      some .imageConversionFailure ∧
    (generate_3d_model env remove_bg seed generate_video refine_details
        expansion_weight mesh_init name output0 retries retry_delay).output_dir =
      output0 := by
  rw [run_conv_fail_eq env remove_bg seed generate_video refine_details
    expansion_weight mesh_init name output0 retries retry_delay hconv]
  exact ⟨rfl, rfl, rfl⟩

/-- C9 witness: a conversion-failure run leaves the previous artifacts in
place. -/
theorem claim9_conv_failure_preserves_witness :
    envConvFail.convert_ok = false ∧
    (generate_3d_model envConvFail true 40 false true 0.2 "thin" "b.png"
        ["a_3d_model.glb", "a_original.jpg"] 3 5).result = none ∧
    (generate_3d_model envConvFail true 40 false true 0.2 "thin" "b.png"
        ["a_3d_model.glb", "a_original.jpg"] 3 5).error =
      some .imageConversionFailure ∧
    (generate_3d_model envConvFail true 40 false true 0.2 "thin" "b.png"
        ["a_3d_model.glb", "a_original.jpg"] 3 5).output_dir =
      ["a_3d_model.glb", "a_original.jpg"] :=
  ⟨rfl,
    claim9_conv_failure_preserves envConvFail true 40 false true 0.2 "thin"
      "b.png" ["a_3d_model.glb", "a_original.jpg"] 3 5 rfl⟩

/-- C3 counterexample: the claim quantifies over every pair of runs, but a
second run whose image conversion fails returns before
`recreate_output_directory`, so the first run's artifacts are still in the
output directory after the second run (which produced nothing). -/
theorem claim3_counterexample :
    (generate_3d_model envConvFail true 40 false true 0.2 "thin" "b.png"
        (generate_3d_model envOkNoVideo true 40 false true 0.2 "thin" "a.png"
          [] 3 5).output_dir 3 5).result = none ∧
    (generate_3d_model envConvFail true 40 false true 0.2 "thin" "b.png"
        (generate_3d_model envOkNoVideo true 40 false true 0.2 "thin" "a.png"
          [] 3 5).output_dir 3 5).output_dir =
      ["a_3d_model.glb", "a_original.jpg"] := by
  decide

/-- C3 (amended): for every pair of pipeline runs executed in sequence, if the
second run's image conversion succeeds (so it reaches the destructive
recreation of the output directory), the directory afterwards holds exactly
what the second run alone would produce from an empty directory — no artifact
of the first run survives. -/
theorem claim3_second_run_wins (env1 : Env) (rb1 : Bool) (sd1 : Nat)
    (gv1 rd1 : Bool) (ew1 : Float) (mi1 nm1 : String) (output0 : List String)
    (r1 d1 : Nat) (env2 : Env) (rb2 : Bool) (sd2 : Nat) (gv2 rd2 : Bool)
    (ew2 : Float) (mi2 nm2 : String) (r2 d2 : Nat)
    (hconv2 : env2.convert_ok = true) :
    (generate_3d_model env2 rb2 sd2 gv2 rd2 ew2 mi2 nm2
        (generate_3d_model env1 rb1 sd1 gv1 rd1 ew1 mi1 nm1 output0 r1 d1).output_dir
        r2 d2).output_dir =
    (generate_3d_model env2 rb2 sd2 gv2 rd2 ew2 mi2 nm2 [] r2 d2).output_dir :=
  run_output_dir_indep env2 rb2 sd2 gv2 rd2 ew2 mi2 nm2
    (generate_3d_model env1 rb1 sd1 gv1 rd1 ew1 mi1 nm1 output0 r1 d1).output_dir
    [] r2 d2 hconv2

/-- C3 witness: two successful runs in sequence; the directory after the
second equals what the second run produces alone. -/
theorem claim3_second_run_wins_witness :
    envOkNoVideo.convert_ok = true ∧
    (generate_3d_model envOkNoVideo true 40 false true 0.2 "thin" "b.png"
        (generate_3d_model envOkNoVideo true 40 false true 0.2 "thin" "a.png"
          [] 3 5).output_dir 3 5).output_dir =
      (generate_3d_model envOkNoVideo true 40 false true 0.2 "thin" "b.png"
        [] 3 5).output_dir :=
  ⟨rfl,
    claim3_second_run_wins envOkNoVideo true 40 false true 0.2 "thin" "a.png"
      [] 3 5 envOkNoVideo true 40 false true 0.2 "thin" "b.png" 3 5 rfl⟩

/-- C2: if the remote signals rate-limiting on exactly the first `N` client
constructions and then succeeds, with `N` below the retry bound, and the rest
of the run succeeds, then the pipeline succeeds, makes exactly `N + 1`
attempts, and the delays slept between consecutive attempts are the doubling
sequence starting at `retry_delay` — in particular non-decreasing. -/
theorem claim2_retry_then_success (env : Env) (remove_bg : Bool) (seed : Nat)
    (generate_video refine_details : Bool) (expansion_weight : Float)
    (mesh_init name : String) (output0 : List String) (retries retry_delay N : Nat)
    (hconv : env.convert_ok = true) (hconn : env.conn_ok = true)
    (hN : N < retries)
    (hrl : ∀ i, i < N → env.connect i = .rateLimited429)
    (hok : env.connect N = .ok)
    (model_path video_path : Option String)
    (hp : env.predict = .ok model_path video_path)
    (hmp : pyTruthy model_path = true)
    (hex : env.file_exists (model_path.getD "") = true) :
    (generate_3d_model env remove_bg seed generate_video refine_details
        expansion_weight mesh_init name output0 retries retry_delay).result.isSome = true ∧
    (generate_3d_model env remove_bg seed generate_video refine_details
        expansion_weight mesh_init name output0 retries retry_delay).attempts = N + 1 ∧
    (generate_3d_model env remove_bg seed generate_video refine_details
        expansion_weight mesh_init name output0 retries retry_delay).delays =
      geomDelays retry_delay N ∧
    List.Chain' (fun a b => a ≤ b)
      (generate_3d_model env remove_bg seed generate_video refine_details
        expansion_weight mesh_init name output0 retries retry_delay).delays := by
  have hloop := connectLoop_rl_then_ok env retries N hrl hok hN N 0 retry_delay
    retries (by omega) (by omega)
  rw [run_success_eq env remove_bg seed generate_video refine_details
    expansion_weight mesh_init name output0 retries retry_delay (N + 1)
    (geomDelays retry_delay N) model_path video_path hconv hconn hloop hp hmp hex]
  exact ⟨rfl, rfl, rfl, geomDelays_chain N retry_delay⟩

/-- C2 witness: one rate-limited attempt, then success — two attempts total
and a single sleep of the base delay. -/
theorem claim2_retry_then_success_witness :
    (generate_3d_model envOneRateLimited true 40 false true 0.2 "thin"
        "photo.png" [] 3 5).result.isSome = true ∧
    (generate_3d_model envOneRateLimited true 40 false true 0.2 "thin"
        "photo.png" [] 3 5).attempts = 2 ∧
    (generate_3d_model envOneRateLimited true 40 false true 0.2 "thin"
        "photo.png" [] 3 5).delays = [5] ∧
    List.Chain' (fun a b => a ≤ b)
      (generate_3d_model envOneRateLimited true 40 false true 0.2 "thin"
        "photo.png" [] 3 5).delays :=
  claim2_retry_then_success envOneRateLimited true 40 false true 0.2 "thin"
    "photo.png" [] 3 5 1 rfl rfl (by decide)
    (fun i hi => by
      have h0 : i = 0 := Nat.lt_one_iff.mp hi
      rw [h0]
      rfl)
    rfl (some "m.glb") none rfl rfl rfl

/-- C5: if the remote signals rate-limiting on every client construction, the
pipeline makes exactly the bounded number of attempts, then returns the
terminal rate-limit error and an empty result, never a success. -/
theorem claim5_exhaustion (env : Env) (remove_bg : Bool) (seed : Nat)
    (generate_video refine_details : Bool) (expansion_weight : Float)
    (mesh_init name : String) (output0 : List String) (retries retry_delay : Nat)
    (hconv : env.convert_ok = true) (hconn : env.conn_ok = true)
    (hrl : ∀ i, env.connect i = .rateLimited429)
    (hpos : 0 < retries) :
    (generate_3d_model env remove_bg seed generate_video refine_details
        expansion_weight mesh_init name output0 retries retry_delay).result = none ∧
    (generate_3d_model env remove_bg seed generate_video refine_details
        expansion_weight mesh_init name output0 retries retry_delay).error =
      some .rateLimited ∧
    (generate_3d_model env remove_bg seed generate_video refine_details
        expansion_weight mesh_init name output0 retries retry_delay).attempts =
      retries := by
  have hloop := connectLoop_all_rl env retries hrl retries 0 retry_delay hpos (by omega)
  rw [run_exhausted_eq env remove_bg seed generate_video refine_details
    expansion_weight mesh_init name output0 retries retry_delay retries
    (geomDelays retry_delay (retries - 1)) hconv hconn hloop]
  exact ⟨rfl, rfl, rfl⟩

/-- C5 witness: with the default bound of 3 retries, an always-rate-limited
endpoint yields exactly 3 attempts and the terminal rate-limit error. -/
theorem claim5_exhaustion_witness :
    (generate_3d_model envAllRateLimited true 40 false true 0.2 "thin"
        "photo.png" [] 3 5).result = none ∧
    (generate_3d_model envAllRateLimited true 40 false true 0.2 "thin"
        "photo.png" [] 3 5).error = some .rateLimited ∧
    (generate_3d_model envAllRateLimited true 40 false true 0.2 "thin"
        "photo.png" [] 3 5).attempts = 3 :=
  claim5_exhaustion envAllRateLimited true 40 false true 0.2 "thin"
    "photo.png" [] 3 5 rfl rfl (fun _ => rfl) (by decide)

/-- C6: if the remote call returns a model path that is empty/None or does
not exist on disk, the pipeline returns the missing-result-asset error with an
empty result, and no artifact file is written into the (recreated, empty)
output directory. -/
theorem claim6_missing_asset (env : Env) (remove_bg : Bool) (seed : Nat)
    (generate_video refine_details : Bool) (expansion_weight : Float)
    (mesh_init name : String) (output0 : List String) (retries retry_delay : Nat)
    (a : Nat) (ds : List Nat) (model_path video_path : Option String)
    (hconv : env.convert_ok = true) (hconn : env.conn_ok = true)
    (hloop : connectLoop env retries retries 0 retry_delay = .connected a ds)
    (hp : env.predict = .ok model_path video_path)
    (hbad : pyTruthy model_path = false ∨ env.file_exists (model_path.getD "") = false) :
    (generate_3d_model env remove_bg seed generate_video refine_details
        expansion_weight mesh_init name output0 retries retry_delay).result = none ∧
    (generate_3d_model env remove_bg seed generate_video refine_details
        expansion_weight mesh_init name output0 retries retry_delay).error =
      some .missingResultAsset ∧
    (generate_3d_model env remove_bg seed generate_video refine_details
        expansion_weight mesh_init name output0 retries retry_delay).output_dir =
      [] := by
  rw [run_missing_eq env remove_bg seed generate_video refine_details
    expansion_weight mesh_init name output0 retries retry_delay a ds
    model_path video_path hconv hconn hloop hp hbad]
  exact ⟨rfl, rfl, rfl⟩

/-- C6 witness: the remote returns a model path that does not exist on disk;
the run yields the missing-result-asset error and writes nothing. -/
theorem claim6_missing_asset_witness :
    (generate_3d_model envMissingModel true 40 false true 0.2 "thin"
        "photo.png" [] 3 5).result = none ∧
    (generate_3d_model envMissingModel true 40 false true 0.2 "thin"
        "photo.png" [] 3 5).error = some .missingResultAsset ∧
    (generate_3d_model envMissingModel true 40 false true 0.2 "thin"
        "photo.png" [] 3 5).output_dir = [] :=
  claim6_missing_asset envMissingModel true 40 false true 0.2 "thin"
    "photo.png" [] 3 5 1 [] (some "m.glb") none rfl rfl rfl rfl (Or.inr rfl)

/-- C1 counterexample: a successful run with `generate_video = false` whose
remote nevertheless returns an existing video path copies the video artifact —
the code's copy decision (line 200) never consults the `generateVideo`
parameter, so "a video asset exists iff `generateVideo` was true and the
remote returned one" fails. -/
theorem claim1_counterexample :
    (generate_3d_model envOkVideo true 40 false true 0.2 "thin" "photo.png"
        [] 3 5).result.isSome = true ∧
    (generate_3d_model envOkVideo true 40 false true 0.2 "thin" "photo.png"
        [] 3 5).output_dir =
      ["photo_3d_model.glb", "photo_original.jpg", "photo_video.mp4"] := by
  decide

/-- C1 (amended): for every successful pipeline run, the output directory
holds exactly one model asset `{base}_3d_model.glb` and one copy of the
(re-encoded) source image `{base}_original.jpg`, with `base` the secured
input filename without extension, plus `{base}_video.mp4` exactly when the
remote call returned a truthy video path that exists on disk — regardless of
the `generateVideo` parameter. -/
theorem claim1_success_artifacts (env : Env) (remove_bg : Bool) (seed : Nat)
    (generate_video refine_details : Bool) (expansion_weight : Float)
    (mesh_init name : String) (output0 : List String) (retries retry_delay : Nat)
    (hs : (generate_3d_model env remove_bg seed generate_video refine_details
      expansion_weight mesh_init name output0 retries retry_delay).result.isSome = true) :
    (generate_3d_model env remove_bg seed generate_video refine_details
        expansion_weight mesh_init name output0 retries retry_delay).output_dir =
      [String.mk (splitext (secure_filename name).toList).1 ++ "_3d_model.glb",
       String.mk (splitext (secure_filename name).toList).1 ++ "_original.jpg"] ++
        (if returned_video_exists env = true
         then [String.mk (splitext (secure_filename name).toList).1 ++ "_video.mp4"]
         else []) := by
  cases hconv : env.convert_ok with
  | false =>
    rw [run_conv_fail_eq env remove_bg seed generate_video refine_details
      expansion_weight mesh_init name output0 retries retry_delay hconv] at hs
    simp at hs
  | true =>
    cases hconn : env.conn_ok with
    | false =>
      rw [run_conn_fail_eq env remove_bg seed generate_video refine_details
        expansion_weight mesh_init name output0 retries retry_delay hconv hconn] at hs
      simp at hs
    | true =>
      cases hloop : connectLoop env retries retries 0 retry_delay with
      | exhausted a ds =>
        rw [run_exhausted_eq env remove_bg seed generate_video refine_details
          expansion_weight mesh_init name output0 retries retry_delay a ds
          hconv hconn hloop] at hs
        simp at hs
      | failed a ds =>
        rw [run_connect_failed_eq env remove_bg seed generate_video refine_details
          expansion_weight mesh_init name output0 retries retry_delay a ds
          hconv hconn hloop] at hs
        simp at hs
      | noClient a ds =>
        rw [run_noClient_eq env remove_bg seed generate_video refine_details
          expansion_weight mesh_init name output0 retries retry_delay a ds
          hconv hconn hloop] at hs
        simp at hs
      | connected a ds =>
        cases hp : env.predict with
        | exn q =>
          rw [run_predict_exn_eq env remove_bg seed generate_video refine_details
            expansion_weight mesh_init name output0 retries retry_delay a ds q
            hconv hconn hloop hp] at hs
          simp at hs
        | ok mp vp =>
          cases hmp : pyTruthy mp with
          | false =>
            rw [run_missing_eq env remove_bg seed generate_video refine_details
              expansion_weight mesh_init name output0 retries retry_delay a ds mp vp
              hconv hconn hloop hp (Or.inl hmp)] at hs
            simp at hs
          | true =>
            cases hex : env.file_exists (mp.getD "") with
            | false =>
              rw [run_missing_eq env remove_bg seed generate_video refine_details
                expansion_weight mesh_init name output0 retries retry_delay a ds mp vp
                hconv hconn hloop hp (Or.inr hex)] at hs
              simp at hs
            | true =>
              rw [run_success_eq env remove_bg seed generate_video refine_details
                expansion_weight mesh_init name output0 retries retry_delay a ds mp vp
                hconv hconn hloop hp hmp hex]
              simp [returned_video_exists, hp]

/-- C1 witness: a successful run (here with `generate_video = false` and a
remote-returned video) produces exactly the named artifacts. -/
theorem claim1_success_artifacts_witness :
    (generate_3d_model envOkVideo true 40 true true 0.2 "thin" "photo.jpeg"
        [] 3 5).result.isSome = true ∧
    (generate_3d_model envOkVideo true 40 true true 0.2 "thin" "photo.jpeg"
        [] 3 5).output_dir =
      [String.mk (splitext (secure_filename "photo.jpeg").toList).1 ++ "_3d_model.glb",
       String.mk (splitext (secure_filename "photo.jpeg").toList).1 ++ "_original.jpg"] ++
        (if returned_video_exists envOkVideo = true
         then [String.mk (splitext (secure_filename "photo.jpeg").toList).1 ++ "_video.mp4"]
         else []) :=
  ⟨by decide,
    claim1_success_artifacts envOkVideo true 40 true true 0.2 "thin"
      "photo.jpeg" [] 3 5 (by decide)⟩

/-- C7 counterexample: a run that fails (here at image conversion) returns
without executing the `shutil.rmtree(temp_dir)` of line 206, so the
per-request temporary directory is not discarded before the pipeline
returns. -/
theorem claim7_counterexample :
    (generate_3d_model envConvFail true 40 false true 0.2 "thin" "photo.png"
        [] 3 5).result = none ∧
    (generate_3d_model envConvFail true 40 false true 0.2 "thin" "photo.png"
        [] 3 5).temp_dir_removed = false := by
  decide

/-- C7 (amended): the per-request temporary working directory is discarded
before the pipeline returns exactly on successful runs; every error return
leaves it in place. -/
theorem claim7_temp_dir_iff_success (env : Env) (remove_bg : Bool) (seed : Nat)
    (generate_video refine_details : Bool) (expansion_weight : Float)
    (mesh_init name : String) (output0 : List String) (retries retry_delay : Nat) :
    (generate_3d_model env remove_bg seed generate_video refine_details
        expansion_weight mesh_init name output0 retries retry_delay).temp_dir_removed =
    (generate_3d_model env remove_bg seed generate_video refine_details
        expansion_weight mesh_init name output0 retries retry_delay).result.isSome := by
  cases hconv : env.convert_ok with
  | false =>
    rw [run_conv_fail_eq env remove_bg seed generate_video refine_details
      expansion_weight mesh_init name output0 retries retry_delay hconv]
    rfl
  | true =>
    cases hconn : env.conn_ok with
    | false =>
      rw [run_conn_fail_eq env remove_bg seed generate_video refine_details
        expansion_weight mesh_init name output0 retries retry_delay hconv hconn]
      rfl
    | true =>
      cases hloop : connectLoop env retries retries 0 retry_delay with
      | exhausted a ds =>
        rw [run_exhausted_eq env remove_bg seed generate_video refine_details
          expansion_weight mesh_init name output0 retries retry_delay a ds
          hconv hconn hloop]
        rfl
      | failed a ds =>
        rw [run_connect_failed_eq env remove_bg seed generate_video refine_details
          expansion_weight mesh_init name output0 retries retry_delay a ds
          hconv hconn hloop]
        rfl
      | noClient a ds =>
        rw [run_noClient_eq env remove_bg seed generate_video refine_details
          expansion_weight mesh_init name output0 retries retry_delay a ds
          hconv hconn hloop]
        rfl
      | connected a ds =>
        cases hp : env.predict with
        | exn q =>
          rw [run_predict_exn_eq env remove_bg seed generate_video refine_details
            expansion_weight mesh_init name output0 retries retry_delay a ds q
            hconv hconn hloop hp]
          rfl
        | ok mp vp =>
          cases hmp : pyTruthy mp with
          | false =>
            rw [run_missing_eq env remove_bg seed generate_video refine_details
              expansion_weight mesh_init name output0 retries retry_delay a ds mp vp
              hconv hconn hloop hp (Or.inl hmp)]
            rfl
          | true =>
            cases hex : env.file_exists (mp.getD "") with
            | false =>
              rw [run_missing_eq env remove_bg seed generate_video refine_details
                expansion_weight mesh_init name output0 retries retry_delay a ds mp vp
                hconv hconn hloop hp (Or.inr hex)]
              rfl
            | true =>
              rw [run_success_eq env remove_bg seed generate_video refine_details
                expansion_weight mesh_init name output0 retries retry_delay a ds mp vp
                hconv hconn hloop hp hmp hex]
              rfl

/-- C8: a run that fails after the output directory has been recreated (its
image conversion succeeded, yet it returns an empty result) leaves the output
directory emptied: the previous submission's artifacts are destroyed although
no new artifacts were produced. -/
theorem claim8_failure_empties (env : Env) (remove_bg : Bool) (seed : Nat)
    (generate_video refine_details : Bool) (expansion_weight : Float)
    (mesh_init name : String) (output0 : List String) (retries retry_delay : Nat)
    (hconv : env.convert_ok = true)
    (hfail : (generate_3d_model env remove_bg seed generate_video refine_details
      expansion_weight mesh_init name output0 retries retry_delay).result = none) :
    (generate_3d_model env remove_bg seed generate_video refine_details
        expansion_weight mesh_init name output0 retries retry_delay).output_dir =
      [] := by
  cases hconn : env.conn_ok with
  | false =>
    rw [run_conn_fail_eq env remove_bg seed generate_video refine_details
      expansion_weight mesh_init name output0 retries retry_delay hconv hconn]
  | true =>
    cases hloop : connectLoop env retries retries 0 retry_delay with
    | exhausted a ds =>
      rw [run_exhausted_eq env remove_bg seed generate_video refine_details
        expansion_weight mesh_init name output0 retries retry_delay a ds
        hconv hconn hloop]
    | failed a ds =>
      rw [run_connect_failed_eq env remove_bg seed generate_video refine_details
        expansion_weight mesh_init name output0 retries retry_delay a ds
        hconv hconn hloop]
    | noClient a ds =>
      rw [run_noClient_eq env remove_bg seed generate_video refine_details
        expansion_weight mesh_init name output0 retries retry_delay a ds
        hconv hconn hloop]
    | connected a ds =>
      cases hp : env.predict with
      | exn q =>
        rw [run_predict_exn_eq env remove_bg seed generate_video refine_details
          expansion_weight mesh_init name output0 retries retry_delay a ds q
          hconv hconn hloop hp]
      | ok mp vp =>
        cases hmp : pyTruthy mp with
        | false =>
          rw [run_missing_eq env remove_bg seed generate_video refine_details
            expansion_weight mesh_init name output0 retries retry_delay a ds mp vp
            hconv hconn hloop hp (Or.inl hmp)]
        | true =>
          cases hex : env.file_exists (mp.getD "") with
          | false =>
            rw [run_missing_eq env remove_bg seed generate_video refine_details
              expansion_weight mesh_init name output0 retries retry_delay a ds mp vp
              hconv hconn hloop hp (Or.inr hex)]
          | true =>
            rw [run_success_eq env remove_bg seed generate_video refine_details
              expansion_weight mesh_init name output0 retries retry_delay a ds mp vp
              hconv hconn hloop hp hmp hex] at hfail
            simp at hfail

/-- C8 witness: a run failing at the reachability probe (after the directory
was recreated) leaves the output directory empty. -/
theorem claim8_failure_empties_witness :
    (generate_3d_model envConnFail true 40 false true 0.2 "thin" "photo.png"
        ["a_3d_model.glb", "a_original.jpg"] 3 5).result = none ∧
    (generate_3d_model envConnFail true 40 false true 0.2 "thin" "photo.png"
        ["a_3d_model.glb", "a_original.jpg"] 3 5).output_dir = [] :=
  ⟨by decide,
    claim8_failure_empties envConnFail true 40 false true 0.2 "thin"
      "photo.png" ["a_3d_model.glb", "a_original.jpg"] 3 5 rfl (by decide)⟩

end Unique3D
